import Mathlib

/-!
Verification of the allsomojo crawl-and-sync engine against its
natural-language specification.  The Python sources (allsomojo/gitops.py,
ghub.py, db.py, core.py, common.py, files.py) are shallowly embedded below:
pure text processing becomes Lean string/list functions, database writes
become explicit state transformations, subprocess calls become values of an
outcome type, and raised exceptions become `Except.error`.
-/

namespace Allsomojo

/-! ## Python string helpers used by gitops.py -/

/-- Split a character list at every occurrence of `sep` (like
`str.split(sep)`: `n` separators produce `n + 1` pieces). -/
def splitOnChar (sep : Char) : List Char → List (List Char)
  | [] => [[]]
  | x :: rest =>
    match splitOnChar sep rest with
    | r :: rs => if x = sep then [] :: r :: rs else (x :: r) :: rs
    | [] => [[]]

/-- Python `str.strip()`: drop whitespace from both ends. -/
def pyStrip (cs : List Char) : List Char :=
  ((cs.dropWhile Char.isWhitespace).reverse.dropWhile Char.isWhitespace).reverse

/-- Python `str.splitlines` restricted to newline-delimited text: splits on
`'\n'` and drops the empty tail produced by a trailing newline. -/
def pySplitlines (cs : List Char) : List (List Char) :=
  if cs.isEmpty then []
  else
    let parts := splitOnChar '\n' cs
    if parts.getLast? = some [] then parts.dropLast else parts

/-- Greedily take leading decimal digits (the `\d+` of the summary regex). -/
def takeDigits : List Char → List Char × List Char
  | [] => ([], [])
  | c :: cs =>
    if c.isDigit then
      let (ds, rest) := takeDigits cs
      (c :: ds, rest)
    else ([], c :: cs)

/-- Decimal value of a digit string. -/
def digitsToNat (ds : List Char) : Nat :=
  ds.foldl (fun acc c => acc * 10 + (c.toNat - '0'.toNat)) 0

/-- Match a literal pattern at the head of the input, returning the rest. -/
def litMatch (pat cs : List Char) : Option (List Char) :=
  if pat.isPrefixOf cs then some (cs.drop pat.length) else none

/-- Match `word`, an optional `'s'`, then `tail` (the `words?tail` shape of
the summary regex, e.g. `files? changed`, `insertions?\(\+\)`). -/
def matchWordWithS (word tail cs : List Char) : Option (List Char) :=
  match litMatch word cs with
  | none => none
  | some rest =>
    match litMatch ('s' :: tail) rest with
    | some r => some r
    | none => litMatch tail rest

/-! ## gitops.get_repo_changes: commit-log parsing -/

/-- The mutable `RepoChanges` dataclass of gitops.py (`files_changed` is a
Python set; here a duplicate-free list). -/
structure RepoChanges where
  lines_added : Nat := 0
  lines_deleted : Nat := 0
  files_changed : List String := []
deriving DecidableEq

/-- Captured groups of the summary-line regex
`(\d+) files? changed(?:, (\d+) insertions?\(\+\))?(?:, (\d+) deletions?\(-\))?`. -/
structure SummaryGroups where
  nFiles : Nat
  ins : Option Nat
  del : Option Nat
deriving DecidableEq

/-- One optional `, (\d+) word s? tail` clause of the summary regex.  On
failure nothing is consumed and the group is `none`. -/
def optClause (word tail cs : List Char) : Option Nat × List Char :=
  match litMatch ", ".toList cs with
  | none => (none, cs)
  | some r1 =>
    let (ds, r2) := takeDigits r1
    if ds.isEmpty then (none, cs)
    else
      match matchWordWithS word tail r2 with
      | none => (none, cs)
      | some r3 => (some (digitsToNat ds), r3)

/-- Attempt the summary regex anchored at the head of `cs`. -/
def summaryAt (cs : List Char) : Option SummaryGroups :=
  let (ds, rest) := takeDigits cs
  if ds.isEmpty then none
  else
    match matchWordWithS " file".toList " changed".toList rest with
    | none => none
    | some r1 =>
      let (insG, r2) := optClause " insertion".toList "(+)".toList r1
      let (delG, _) := optClause " deletion".toList "(-)".toList r2
      some ⟨digitsToNat ds, insG, delG⟩

/-- Python `re.search` of the summary regex: first position where a match starts. -/
def searchSummaryFrom : List Char → Option SummaryGroups
  | [] => none
  | c :: rest =>
    match summaryAt (c :: rest) with
    | some g => some g
    | none => searchSummaryFrom rest

/-- Character class `[a-z0-9]` of the commit-marker regex. -/
def isCommitHashChar (c : Char) : Bool :=
  c.isDigit || ('a' ≤ c && c ≤ 'z')

/-- Does `commit [a-z0-9]{40}` match at the head of `cs`? -/
def commitMarkerAt (cs : List Char) : Bool :=
  "commit ".toList.isPrefixOf cs
    && ((cs.drop 7).take 40).length == 40
    && ((cs.drop 7).take 40).all isCommitHashChar

/-- Start offsets of all non-overlapping `commit [a-z0-9]{40}` matches
(`re.finditer` scanning left to right).  Structural recursion on a fuel
argument; every step consumes at least one character, so any fuel of at
least the input length is exact. -/
def findCommitStartsAux (fuel : Nat) (cs : List Char) (i : Nat) : List Nat :=
  match fuel, cs with
  | 0, _ => []
  | _ + 1, [] => []
  | fuel + 1, c :: rest =>
    if commitMarkerAt (c :: rest) then
      i :: findCommitStartsAux fuel (rest.drop 46) (i + 47)
    else findCommitStartsAux fuel rest (i + 1)

/-- All commit-marker start offsets of the log text. -/
def findCommitStarts (cs : List Char) (i : Nat) : List Nat :=
  findCommitStartsAux cs.length cs i

/-- Python slice `cs[a:b]`. -/
def sliceList (cs : List Char) (a b : Nat) : List Char :=
  (cs.drop a).take (b - a)

/-- The commit segments: each match start up to the next match start, the
last one running to the end of the log. -/
def segmentsFrom (cs : List Char) : List Nat → List (List Char)
  | [] => []
  | [p] => [cs.drop p]
  | p :: q :: rest => sliceList cs p q :: segmentsFrom cs (q :: rest)

/-- Set-insert into the `files_changed` list. -/
def setAdd (xs : List String) (x : String) : List String :=
  if x ∈ xs then xs else xs ++ [x]

/-- The `for line in reversed(lines)` loop of `get_repo_changes`: walk the
remaining lines bottom-up, stop at the first blank line, and record the
stripped part before `"|"` of each table line. -/
def collectChanged (acc : List String) : List (List Char) → List String
  | [] => acc
  | l :: rest =>
    if l.isEmpty then acc
    else
      collectChanged
        (if l.contains '|' then
          setAdd acc (String.mk (pyStrip (l.takeWhile (fun c => c ≠ '|'))))
         else acc)
        rest

/-- Body of the `for commit in commits` loop: strip the lines, pop the last
line and run the summary regex on it (assigning, not accumulating, the
insertion/deletion groups), then collect changed files from the rest. -/
def processCommit (rc : RepoChanges) (commit : List Char) : RepoChanges :=
  let lines := (pySplitlines commit).map pyStrip
  if lines.isEmpty then rc
  else
    let lastLine := lines.getLast!
    let rest := lines.dropLast
    let rc2 :=
      match searchSummaryFrom lastLine with
      | some g => { rc with lines_added := g.ins.getD 0, lines_deleted := g.del.getD 0 }
      | none => rc
    { rc2 with files_changed := collectChanged rc2.files_changed rest.reverse }

/-- Function `get_repo_changes` applied to the text of a successful
`git log --stat --all` call. -/
def get_repo_changes_of_log (commit_log : String) : RepoChanges :=
  let starts := findCommitStarts commit_log.data 0
  if starts.isEmpty then {}
  else
    let commits := (segmentsFrom commit_log.data starts).map pyStrip
    commits.foldl processCommit {}

/-! ## Subprocess outcomes (sh calls in gitops.py) -/

/-- Outcome of one `sh` subprocess invocation: captured stdout on success,
or one of the failure modes distinguished by gitops.py. -/
inductive GitOutcome where
  | success (stdout : String)
  | errorReturnCode (msg : String)
  | timeout
  | decodeError
deriving DecidableEq

/-- Embedding of `gitops.get_repo_changes`: the `try` block runs the log subprocess; only
`ErrorReturnCode` is caught (returning the zero-valued `RepoChanges`); any
other exception propagates as `Except.error`. -/
def get_repo_changes (res : GitOutcome) : Except String RepoChanges :=
  match res with
  | .success out => .ok (get_repo_changes_of_log out)
  | .errorReturnCode _ => .ok {}
  | .timeout => .error "TimeoutException"
  | .decodeError => .error "UnicodeDecodeError"

/-- Python `int(...)` on the stripped decimal output of `wc -l`. -/
def pyInt (cs : List Char) : Option Nat :=
  if !cs.isEmpty && cs.all Char.isDigit then some (digitsToNat cs) else none

/-- Embedding of `gitops.total_commits`: pipes `git log --oneline --all` through `wc -l`
and parses the count.  No exception handling at all: every failure mode
propagates. -/
def total_commits (res : GitOutcome) : Except String Nat :=
  match res with
  | .success out =>
    match pyInt (pyStrip out.data) with
    | some n => .ok n
    | none => .error "ValueError"
  | .errorReturnCode msg => .error msg
  | .timeout => .error "TimeoutException"
  | .decodeError => .error "UnicodeDecodeError"

/-- One queue entry of `core.parse_local_repos`: a local mirror together
with the outcomes of its two git subprocess invocations. -/
structure MirrorJob where
  name : String
  changesResult : GitOutcome
  commitsResult : GitOutcome

/-- The `core.parse_local_repos` worker loop restricted to commit-stats
extraction: drain the queue, compute `get_repo_changes` then
`total_commits` per mirror, write one update per mirror.  An uncaught
exception ends the worker; already-written updates are kept and the
exception message is returned alongside them. -/
def statsWorker : List MirrorJob → List (String × RepoChanges × Nat) →
    List (String × RepoChanges × Nat) × Option String
  | [], acc => (acc, none)
  | j :: rest, acc =>
    match get_repo_changes j.changesResult with
    | .error e => (acc, some e)
    | .ok rc =>
      match total_commits j.commitsResult with
      | .error e => (acc, some e)
      | .ok n => statsWorker rest (acc ++ [(j.name, rc, n)])

/-! ## ghub.search_for_repos: date windows -/

/-- The `while search_start < search_end` loop of `ghub.search_for_repos`
for a single query (dates as day numbers, `dt = 20` days): returns the
emitted `(start, end)` windows and the final value of the mutated
`search_start` variable. -/
def runQueryWindowsAux (fuel s today : Nat) : List (Nat × Nat) × Nat :=
  match fuel with
  | 0 => ([], s)
  | fuel + 1 =>
    if s < today then
      let res := runQueryWindowsAux fuel (s + 20) today
      ((s, min today (s + 20)) :: res.1, res.2)
    else ([], s)

/-- The window loop for one query; every iteration advances `search_start`
by 20 days, so fuel `today - s` is exact. -/
def runQueryWindows (s today : Nat) : List (Nat × Nat) × Nat :=
  runQueryWindowsAux (today - s) s today

/-- The `for query in tqdm(queries)` loop of `ghub.search_for_repos`:
`search_start` is a single variable threaded through all queries (it is
never reset between queries).  Returns every `(query, start, end)` search
window issued. -/
def search_for_repos (queries : List String) (searchStart today : Nat) :
    List (String × Nat × Nat) :=
  match queries with
  | [] => []
  | q :: qs =>
    let res := runQueryWindows searchStart today
    res.1.map (fun w => (q, w.1, w.2)) ++ search_for_repos qs res.2 today

/-! ## db.save_repo_metadata: the catalog upsert -/

/-- A `repos` row restricted to the crawl-bookkeeping columns. -/
structure CrawlRow where
  full_name : String
  n_crawls : Nat
  first_crawled_at : Nat
  last_crawled_at : Nat
deriving DecidableEq

/-- Object `sa.MetaData()` is created without a schema, so
`repos_table.metadata.schema` is Python `None`. -/
def sa_meta_schema : Option String := none

/-- The f-string `f'{repos_table.metadata.schema}."repos".n_crawls + 1'`
renders the schema object through `str`, so `None` becomes the text
`"None"`. -/
def nCrawlsSetExprSchema : String :=
  match sa_meta_schema with
  | none => "None"
  | some s => s

/-- Schema names that resolve in a SQLite connection. -/
def attachedSchemas : List String := ["main", "temp"]

/-- Embedding of `db.save_repo_metadata` on the crawl-bookkeeping columns.
Every call executes one statement that carries the `ON CONFLICT DO UPDATE`
SET list, and SQLite prepares the whole statement before executing it:
the schema-qualified column in the raw-SQL `n_crawls` expression must
resolve against an attached schema even when no conflict will occur,
otherwise the statement fails with an OperationalError and nothing is
written.  Only when preparation succeeds does the upsert run: a plain
insert with column defaults (`n_crawls=1`,
`first_crawled_at=last_crawled_at=now`) when `full_name` is new, and the
SET list (`n_crawls+1`, `last_crawled_at=now`) on conflict. -/
def save_repo_metadata (db : List CrawlRow) (name : String) (now : Nat) :
    Except String (List CrawlRow) :=
  if attachedSchemas.contains nCrawlsSetExprSchema then
    match db.find? (fun r => r.full_name == name) with
    | none =>
      .ok (db ++ [{ full_name := name, n_crawls := 1,
                    first_crawled_at := now, last_crawled_at := now }])
    | some _ =>
      .ok (db.map (fun r =>
        if r.full_name == name then
          { r with n_crawls := r.n_crawls + 1, last_crawled_at := now }
        else r))
  else
    .error ("no such column: " ++ nCrawlsSetExprSchema ++ ".repos.n_crawls")

/-! ## core.blacklist_repos and the not-found writer (ghub.update_saved_repos) -/

/-- A `repos` row restricted to the columns the classifier reads/writes.
File counts are `Option Nat`: `none` is SQL NULL (never parsed locally),
under which the SQL comparisons below are not satisfied. -/
structure CatalogRow where
  full_name : String
  n_mojo_files : Option Nat
  n_python_files : Option Nat
  n_notebook_files : Option Nat
  local_path : Option String
  blacklisted_reason : Option String
  manually_checked : Bool
deriving DecidableEq

/-- SQL `column > 0` under three-valued logic: NULL is not greater. -/
def sqlGtZero : Option Nat → Bool
  | some n => decide (0 < n)
  | none => false

/-- First UPDATE of `core.blacklist_repos`: no code files of any tracked
kind, not yet blacklisted, locally cloned, not manually checked. -/
def rule_no_code_files (r : CatalogRow) : CatalogRow :=
  if r.n_python_files == some 0 && r.n_mojo_files == some 0
      && r.n_notebook_files == some 0 && r.blacklisted_reason.isNone
      && r.local_path.isSome && !r.manually_checked then
    { r with blacklisted_reason := some "no code files" }
  else r

/-- Second UPDATE of `core.blacklist_repos`: whitelist blacklisted repos
that now have Mojo files, unless manually checked. -/
def rule_whitelist (r : CatalogRow) : CatalogRow :=
  if sqlGtZero r.n_mojo_files && r.blacklisted_reason.isSome
      && !r.manually_checked then
    { r with blacklisted_reason := none }
  else r

/-- Third UPDATE of `core.blacklist_repos`: flag repos without Mojo files
for manual review. -/
def rule_needs_review (r : CatalogRow) : CatalogRow :=
  if r.n_mojo_files == some 0 && !r.manually_checked
      && r.blacklisted_reason.isNone then
    { r with blacklisted_reason := some "needs review" }
  else r

/-- Embedding of `core.blacklist_repos`: runs the three UPDATE statements in this fixed
order; each row is affected independently. -/
def blacklist_repos (r : CatalogRow) : CatalogRow :=
  rule_needs_review (rule_whitelist (rule_no_code_files r))

/-- The `UnknownObjectException` handler inside
`ghub.update_saved_repos.get_repo`: sets `blacklisted_reason="not found"`
filtered only by `full_name` — there is no `manually_checked` condition. -/
def mark_not_found (r : CatalogRow) : CatalogRow :=
  { r with blacklisted_reason := some "not found" }

/-- Embedding of `ghub.update_saved_repos` applied to one catalog row: the row is
selected unless it is blacklisted and blacklisted rows are excluded; a
selected row whose repository no longer exists upstream is marked not
found. -/
def update_saved_repos_row (include_blacklisted : Bool) (found_upstream : Bool)
    (r : CatalogRow) : CatalogRow :=
  if (include_blacklisted || r.blacklisted_reason.isNone) && !found_upstream then
    mark_not_found r
  else r

/-! ## gitops.git_pull_local_repos -/

/-- Outcome of one `git pull` subprocess. -/
inductive PullOutcome where
  | success
  | errorReturnCode
  | timeout
deriving DecidableEq

/-- A `repos` row restricted to the columns `git_pull_local_repos`
touches (only rows with a non-NULL `local_path` are modelled). -/
structure LocalRepoRow where
  local_path : String
  pushed_at : Nat
  last_pulled_at : Option Nat
  blacklisted_reason : Option String
deriving DecidableEq

/-- The WHERE conditions of `files.local_repo_paths` as called by
`git_pull_local_repos`: not blacklisted (unless included), and
`last_pulled_at IS NULL OR last_pulled_at < pushed_at`. -/
def isPullCandidate (include_blacklisted : Bool) (r : LocalRepoRow) : Bool :=
  (include_blacklisted || r.blacklisted_reason.isNone)
    && (r.last_pulled_at.isNone
        || match r.last_pulled_at with
           | some t => decide (t < r.pushed_at)
           | none => true)

/-- Embedding of `gitops.run_git_commands`: runs every command; `_run_command` catches
`TimeoutException` and `ErrorReturnCode`, logging them and returning
Python `None`, so each command is yielded paired with `some` result on
success and `none` on failure. -/
def run_git_commands (cmds : List String) (outcome : String → PullOutcome) :
    List (String × Option PullOutcome) :=
  cmds.map (fun c =>
    (c, match outcome c with
        | PullOutcome.success => some PullOutcome.success
        | _ => none))

/-- The pull working directories handed to `git.pull.bake` (one command per
candidate row's `local_path`). -/
def pull_cmds (include_blacklisted : Bool) (db : List LocalRepoRow) : List String :=
  (db.filter (isPullCandidate include_blacklisted)).map (fun r => r.local_path)

/-- One iteration of the `for command, _ in run_git_commands(...)` loop of
`gitops.git_pull_local_repos`: the yielded result is bound to `_` and
ignored; the UPDATE sets `last_pulled_at=now` wherever `local_path` equals
the command's cwd. -/
def applyPullUpdate (now : Nat) (db : List LocalRepoRow)
    (cmd : String × Option PullOutcome) : List LocalRepoRow :=
  db.map (fun r =>
    if r.local_path == cmd.1 then { r with last_pulled_at := some now } else r)

/-- Embedding of `gitops.git_pull_local_repos`: build the pull commands from the catalog,
run them, and per yielded command update `last_pulled_at`. -/
def git_pull_local_repos (include_blacklisted : Bool) (db : List LocalRepoRow)
    (outcome : String → PullOutcome) (now : Nat) : List LocalRepoRow :=
  (run_git_commands (pull_cmds include_blacklisted db) outcome).foldl
    (applyPullUpdate now) db

/-! ## gitops.clone_new_repos: post-clone validation -/

/-- What the filesystem looks like at a clone target after the clone
command has run: does the directory exist, and does it contain a `.git`
subdirectory? -/
structure CloneTargetFs where
  isDir : Bool
  hasGitDir : Bool
deriving DecidableEq

/-- Embedding of `clone_new_repos._update_local_repo_paths`: two assertions guard the
UPDATE that records `local_path`; a failed assertion raises before any
write happens. -/
def update_local_repo_paths (fs : CloneTargetFs) (path : String) :
    Except String String :=
  if !fs.isDir then .error "AssertionError: local_path is not a directory"
  else if !fs.hasGitDir then .error "AssertionError: no .git directory"
  else .ok path

/-- One command of `clone_new_repos._try_clone_repos`: a missing clone
directory marks the command failed (eligible for batch retry) without
writing; otherwise the assertion-guarded write runs, and a raised
assertion propagates. -/
def try_clone_repo (fs : CloneTargetFs) (path : String) :
    Except String (Option String × Bool) :=
  if !fs.isDir then .ok (none, true)
  else
    match update_local_repo_paths fs path with
    | .ok p => .ok (some p, false)
    | .error e => .error e

/-- The catalog's `local_path` column for one repo after its clone attempt:
it was `old` before; it changes only if the validated UPDATE ran. -/
def local_path_after_clone (fs : CloneTargetFs) (old : Option String)
    (path : String) : Option String :=
  match try_clone_repo fs path with
  | .ok (some p, _) => some p
  | .ok (none, _) => old
  | .error _ => old

/-! ## ghub.search_for_code -/

/-- Constant `common.mojo_launch_date = datetime(2023, 5, 1, tzinfo=UTC)` as a Unix
timestamp (seconds). -/
def mojo_launch_date : Nat := 1682899200

/-- A code-search result's repository, as compared against the launch
date. -/
structure CodeSearchHit where
  full_name : String
  created_at : Nat
deriving DecidableEq

/-- The two catalog relations written by `ghub.save_repo`: `repos` rows
(keyed by `full_name`) and `repo_queries` provenance pairs. -/
structure CatalogState where
  repoRows : List String
  queryRows : List (String × String)
deriving DecidableEq

/-- Embedding of `ghub.save_repo`: upsert the metadata row and insert the provenance
pair (duplicates ignored). -/
def save_repo (st : CatalogState) (full_name query : String) : CatalogState :=
  { repoRows :=
      if st.repoRows.contains full_name then st.repoRows
      else st.repoRows ++ [full_name],
    queryRows :=
      if st.queryRows.contains (full_name, query) then st.queryRows
      else st.queryRows ++ [(full_name, query)] }

/-- Body of the result loop in `ghub.search_for_code`: a hit is saved only
if its repository was created at or after the Mojo launch date. -/
def search_for_code_step (query : String) (st : CatalogState)
    (hit : CodeSearchHit) : CatalogState :=
  if mojo_launch_date ≤ hit.created_at then save_repo st hit.full_name query
  else st

/-- The code-search queries of `ghub.search_for_code`. -/
def code_search_queries : List String := [".🔥 in:path", ".mojo in:path"]

/-- Embedding of `ghub.search_for_code`: iterate the queries and fold every hit through
the launch-date gate. -/
def search_for_code (st : CatalogState)
    (results : String → List CodeSearchHit) : CatalogState :=
  code_search_queries.foldl
    (fun st q => (results q).foldl (search_for_code_step q) st) st

/-! ## ghub.extract_repo_metadata -/

/-- The fetched repository attributes that `extract_repo_metadata`
inspects. -/
structure GhRepo where
  repo_name : String
  username : String
  watchers : Int
  watchers_count : Int
  open_issues : Int
  open_issues_count : Int
  forks : Int
  forks_count : Int
deriving DecidableEq

/-- The metadata record built for the database. -/
structure RepoMetadata where
  repo_name : String
  username : String
  full_name : String
  watchers : Int
  open_issues : Int
  forks : Int
deriving DecidableEq

/-- Embedding of `ghub.extract_repo_metadata`: three assertions compare each attribute
with its `*_count` twin before any record is built; a failed assertion
raises and no record is produced. -/
def extract_repo_metadata (r : GhRepo) : Except String RepoMetadata :=
  if r.watchers ≠ r.watchers_count then
    .error "AssertionError: watchers"
  else if r.open_issues ≠ r.open_issues_count then
    .error "AssertionError: open_issues"
  else if r.forks ≠ r.forks_count then
    .error "AssertionError: forks"
  else
    .ok { repo_name := r.repo_name, username := r.username,
          full_name := r.username ++ "/" ++ r.repo_name,
          watchers := r.watchers, open_issues := r.open_issues,
          forks := r.forks }

/-! ## Concrete inputs used by the claim theorems -/

/-- A change-stat log with two commit segments, the first summarising
`3 files changed, 10 insertions(+), 2 deletions(-)` and the second
`1 file changed, 5 insertions(+)`. -/
def c1_commit_log : String :=
  "commit aaaaaaaaaaaaaaaaaaaaaaaaaaaaaaaaaaaaaaaa\n a.mojo | 12 ++\n 3 files changed, 10 insertions(+), 2 deletions(-)\ncommit bbbbbbbbbbbbbbbbbbbbbbbbbbbbbbbbbbbbbbbb\n b.mojo | 5 ++\n 1 file changed, 5 insertions(+)"

/-- A manually-checked catalog row that still exists in the catalog with a
clean (NULL) `blacklisted_reason`. -/
def c4_row : CatalogRow :=
  { full_name := "acme/hello", n_mojo_files := some 3,
    n_python_files := some 0, n_notebook_files := some 0,
    local_path := some "/repos/acme/hello",
    blacklisted_reason := none, manually_checked := true }

/-- A local mirror that is a pull candidate (never pulled). -/
def c5_row : LocalRepoRow :=
  { local_path := "/repos/acme/hello", pushed_at := 10,
    last_pulled_at := none, blacklisted_reason := none }

/-- A not-manually-checked row with zero files of every tracked kind, a
local clone, and no blacklist reason: it satisfies the conditions of both
classifier rule 1 and classifier rule 3. -/
def c8_row : CatalogRow :=
  { full_name := "acme/empty", n_mojo_files := some 0,
    n_python_files := some 0, n_notebook_files := some 0,
    local_path := some "/repos/acme/empty",
    blacklisted_reason := none, manually_checked := false }

/-! ## Claim theorems -/

set_option maxRecDepth 100000 in
/-- C1: evaluating `get_repo_changes` at a log whose segment summaries are
`3 files changed, 10 insertions(+), 2 deletions(-)` and
`1 file changed, 5 insertions(+)` returns `lines_added = 5` and
`lines_deleted = 0` — the groups of the last segment only, because the loop
assigns instead of accumulating — not the sums 15 and 2 the specification
states. -/
theorem get_repo_changes_keeps_last_segment_only :
    get_repo_changes (GitOutcome.success c1_commit_log)
      = Except.ok { lines_added := 5, lines_deleted := 0,
                    files_changed := ["a.mojo", "b.mojo"] }
    ∧ (5 : Nat) ≠ 10 + 5 ∧ (0 : Nat) ≠ 2 := by
  refine ⟨by rfl, by decide, by decide⟩

/-- C2: evaluating the search loop with two query variants over the 30-day
range from day 0 to day 30 issues windows `0..20` and `20..30` for the
first query and none at all for the second, because `search_start` is
mutated by the first query's window loop and never reset — the windows for
later queries do not tile `[watermark, today)`. -/
theorem search_for_repos_second_query_gets_no_windows :
    search_for_repos ["mojo🔥 in:name,description,readme,topics,path",
                      "mojo in:name,description,readme,topics,path"] 0 30
      = [("mojo🔥 in:name,description,readme,topics,path", 0, 20),
         ("mojo🔥 in:name,description,readme,topics,path", 20, 30)]
    ∧ (0 : Nat) < 30 := by
  refine ⟨by rfl, by decide⟩

/-- C3: every `save_repo_metadata` call fails — the very first insert of a
new `full_name` included — because the statement it prepares always carries
the ON CONFLICT SET expression, which references `n_crawls` through the
rendered schema prefix `"None"` (Python `str` of the schema-less metadata
object); no such schema is attached, so the statement is rejected at
prepare time and `n_crawls` is neither initialised to 1 nor ever
incremented. -/
theorem save_repo_metadata_always_errors (db : List CrawlRow) (name : String)
    (now : Nat) :
    save_repo_metadata db name now
      = Except.error "no such column: None.repos.n_crawls" := rfl

/-- C4 counterexample: the not-found handler of `update_saved_repos`
changes the `blacklisted_reason` of a row with `manually_checked = true`
(here from NULL to `"not found"`), so not every non-interactive writer
respects the freeze. -/
theorem not_found_handler_ignores_manually_checked :
    c4_row.manually_checked = true
    ∧ (update_saved_repos_row false false c4_row).blacklisted_reason
        = some "not found"
    ∧ (update_saved_repos_row false false c4_row).blacklisted_reason
        ≠ c4_row.blacklisted_reason := by
  refine ⟨rfl, rfl, by decide⟩

/-- C4 (amended): the three classifier rules leave a row with
`manually_checked = true` completely untouched, whatever its file counts;
the not-found handler, by contrast, overwrites `blacklisted_reason` of any
selected row regardless of `manually_checked`. -/
theorem classifier_freezes_manually_checked (r : CatalogRow)
    (h : r.manually_checked = true) :
    blacklist_repos r = r
    ∧ (update_saved_repos_row true false r).blacklisted_reason
        = some "not found" := by
  constructor
  · simp [blacklist_repos, rule_no_code_files, rule_whitelist,
      rule_needs_review, h]
  · simp [update_saved_repos_row, mark_not_found]

/-- C4 witness: the amended theorem applied to the concrete manually
checked row. -/
theorem classifier_freezes_manually_checked_witness :
    blacklist_repos c4_row = c4_row
    ∧ (update_saved_repos_row true false c4_row).blacklisted_reason
        = some "not found" :=
  classifier_freezes_manually_checked c4_row (by decide)

/-- C6: after a clone attempt, the catalog's `local_path` equals the clone
directory exactly when the directory exists and holds a `.git`
subdirectory; in every failure case (missing directory, failed
post-validation assertion) the old value persists, so a repository with
`local_path` unset stays unset. -/
theorem local_path_set_iff_valid_clone (fs : CloneTargetFs)
    (old : Option String) (path : String) :
    local_path_after_clone fs old path
      = if fs.isDir && fs.hasGitDir then some path else old := by
  rcases fs with ⟨d, g⟩
  cases d <;> cases g <;> rfl

/-- C9: a code-search hit whose repository was created strictly before the
Mojo launch date is filtered out before `save_repo` runs, so it writes
neither a catalog row nor a provenance row — the catalog state is
unchanged. -/
theorem search_for_code_skips_pre_launch (q : String) (st : CatalogState)
    (hit : CodeSearchHit) (h : hit.created_at < mojo_launch_date) :
    search_for_code_step q st hit = st := by
  unfold search_for_code_step
  rw [if_neg]
  omega

/-- C9 witness: the theorem applied to a repository created at the epoch,
well before the launch date. -/
theorem search_for_code_skips_pre_launch_witness :
    (0 : Nat) < mojo_launch_date
    ∧ search_for_code_step ".mojo in:path" ⟨[], []⟩ ⟨"old/repo", 0⟩
        = ⟨[], []⟩ :=
  ⟨by decide, search_for_code_skips_pre_launch ".mojo in:path" ⟨[], []⟩
    ⟨"old/repo", 0⟩ (by decide)⟩

/-- C10: `extract_repo_metadata` produces a record exactly when the three
attribute pairs agree; any disagreement fails an assertion and no record
is produced. -/
theorem extract_repo_metadata_ok_iff_counts_agree (r : GhRepo) :
    (extract_repo_metadata r).isOk
      = (decide (r.watchers = r.watchers_count)
          && decide (r.open_issues = r.open_issues_count)
          && decide (r.forks = r.forks_count)) := by
  unfold extract_repo_metadata
  split_ifs with h1 h2 h3 <;> simp_all [Except.isOk, Except.toBool]

/-- C5 counterexample: a pull candidate whose `git pull` times out still
gets `last_pulled_at = now`, so a failed pull does not leave the timestamp
stale as the claim states. -/
theorem failed_pull_still_updates_last_pulled_at :
    git_pull_local_repos false [c5_row] (fun _ => PullOutcome.timeout) 100
      = [{ c5_row with last_pulled_at := some 100 }]
    ∧ ({ c5_row with last_pulled_at := some 100 } : LocalRepoRow) ≠ c5_row := by
  refine ⟨by rfl, by decide⟩

/-- Folding the per-command UPDATE over yielded commands sets
`last_pulled_at = now` for exactly the rows whose `local_path` occurs among
the commands; the result component of each yielded pair is never
inspected. -/
theorem applyPullUpdate_foldl (now : Nat) :
    ∀ (cmds : List (String × Option PullOutcome)) (db : List LocalRepoRow),
      cmds.foldl (applyPullUpdate now) db
        = db.map (fun r =>
            if cmds.any (fun cmd => r.local_path == cmd.1) then
              { r with last_pulled_at := some now }
            else r)
  | [], db => by simp
  | c :: cs, db => by
    rw [List.foldl_cons, applyPullUpdate_foldl now cs, applyPullUpdate,
      List.map_map]
    refine List.map_congr_left ?_
    intro r _
    cases hb : (r.local_path == c.1) <;>
      simp only [Function.comp, List.any_cons, hb, Bool.false_or,
        Bool.true_or] <;> simp

/-- C5 (amended): one invocation of `git_pull_local_repos` sets
`last_pulled_at = now` for every repository handed a pull command — the
pull candidates — regardless of the subprocess outcome; the right-hand
side does not depend on `outcome` at all.  A failed pull therefore stops
being a pull candidate until a newer push. -/
theorem git_pull_updates_candidates_regardless_of_outcome
    (include_blacklisted : Bool) (db : List LocalRepoRow)
    (outcome : String → PullOutcome) (now : Nat) :
    git_pull_local_repos include_blacklisted db outcome now
      = db.map (fun r =>
          if (pull_cmds include_blacklisted db).any
              (fun p => r.local_path == p) then
            { r with last_pulled_at := some now }
          else r) := by
  unfold git_pull_local_repos run_git_commands
  rw [applyPullUpdate_foldl]
  simp [List.any_map, Function.comp]

/-- C7 counterexample: a non-zero exit of the lifetime-commit-count
subprocess is uncaught: the worker records no zero-valued stats for that
mirror and dies before the remaining mirror is processed. -/
theorem total_commits_failure_aborts_worker :
    statsWorker
      [{ name := "acme/a", changesResult := GitOutcome.success "",
         commitsResult := GitOutcome.errorReturnCode "git log failed" },
       { name := "acme/b", changesResult := GitOutcome.success "",
         commitsResult := GitOutcome.success "7" }] []
      = ([], some "git log failed") := by rfl

/-- C7 (amended): only an `ErrorReturnCode` from the change-stat subprocess
yields a zero-valued stats object and lets the worker continue to the next
mirror; a timeout or decode error there, and any failure of the lifetime
commit count, propagate as exceptions. -/
theorem stats_failure_semantics (m name : String) (rest : List MirrorJob)
    (acc : List (String × RepoChanges × Nat)) :
    get_repo_changes (GitOutcome.errorReturnCode m) = Except.ok {}
    ∧ statsWorker
        ({ name := name, changesResult := GitOutcome.errorReturnCode m,
           commitsResult := GitOutcome.success "7" } :: rest) acc
        = statsWorker rest (acc ++ [(name, ({} : RepoChanges), 7)])
    ∧ total_commits (GitOutcome.errorReturnCode m) = Except.error m
    ∧ get_repo_changes GitOutcome.timeout = Except.error "TimeoutException"
    ∧ get_repo_changes GitOutcome.decodeError
        = Except.error "UnicodeDecodeError" := by
  refine ⟨rfl, rfl, rfl, rfl, rfl⟩

/-- C8 counterexample: on a row satisfying both rule 1 and rule 3 (zero
files of every kind, local clone present, reason NULL, not manually
checked) the rule order decides the outcome: the code's order blacklists it
as `"no code files"`, the reverse order flags it `"needs review"`. -/
theorem classifier_rules_order_dependent :
    (rule_needs_review (rule_whitelist (rule_no_code_files c8_row))).blacklisted_reason
      = some "no code files"
    ∧ (rule_no_code_files (rule_whitelist (rule_needs_review c8_row))).blacklisted_reason
      = some "needs review"
    ∧ ("no code files" : String) ≠ "needs review" := by
  refine ⟨by rfl, by rfl, by decide⟩

/-- C8 (amended): re-running the full classifier in its fixed rule order on
unchanged file counts is a no-op. -/
theorem blacklist_repos_idempotent (r : CatalogRow) :
    blacklist_repos (blacklist_repos r) = blacklist_repos r := by
  rcases r with ⟨fn, nm, np, nn, lp, br, mc⟩
  cases mc with
  | true =>
    simp [blacklist_repos, rule_no_code_files, rule_whitelist,
      rule_needs_review]
  | false =>
    rcases nm with _ | ⟨_ | k⟩
    · simp [blacklist_repos, rule_no_code_files, rule_whitelist,
        rule_needs_review, sqlGtZero]
    · rcases br with _ | s
      · cases hnp : (np == some 0) <;> cases hnn : (nn == some 0) <;>
          cases hlp : lp.isSome <;>
          simp [blacklist_repos, rule_no_code_files, rule_whitelist,
            rule_needs_review, sqlGtZero, hnp, hnn, hlp]
      · simp [blacklist_repos, rule_no_code_files, rule_whitelist,
          rule_needs_review, sqlGtZero]
    · rcases br with _ | s <;>
        simp [blacklist_repos, rule_no_code_files, rule_whitelist,
          rule_needs_review, sqlGtZero]

end Allsomojo
